import Mathlib

/-!
Verification of `examples/extending_query/filter_per_tenant.py`: a multi-tenant
data-isolation recipe that intercepts every ORM query through the
`do_orm_execute` session event and attaches a `with_loader_criteria` option
restricting tenant-bound rows to the current account.

The interceptor `_add_filtering_criteria`, the `Context` holder and the
declarative classes are translated directly from the source file.  The ORM
query-execution machinery (statement compilation, loader-criteria propagation
to relationship loads) lives in the surrounding library, outside the example
file; those parts are modelled from the specification and are marked
`Modelled from the spec:` in their doc comments.
-/

namespace FilterPerTenant

/-- The Python `Account` ORM object as held in the context: `id` and `name`
are `String` columns, attribute access may yield `None`. -/
structure Account where
  id : Option String
  name : Option String
deriving DecidableEq, Repr

/-- `Account.__tablename__ = "account"`. -/
def Account.tablename : String := "account"

/-- The `Context` class: a single mutable slot `current_account`,
initialised to `None` by `__init__`. -/
structure Context where
  current_account : Option Account
deriving DecidableEq, Repr

/-- `Context.__init__`: `self.current_account = None`. -/
def Context.init : Context := ⟨none⟩

/-- `Context.get_current_account`: returns the slot. -/
def Context.get_current_account (c : Context) : Option Account :=
  c.current_account

/-- `Context.set_current_account`: overwrites the slot. -/
def Context.set_current_account (_c : Context) (account : Option Account) : Context :=
  ⟨account⟩

/-- The declarative classes appearing in the file: `Account`, `User`,
`Address`. -/
inductive EntityClass where
  | accountClass
  | userClass
  | addressClass
deriving DecidableEq, Repr

/-- Which classes inherit `AccountBoundMixin`: `User(Base, AccountBoundMixin)`
and `Address(Base, AccountBoundMixin)` do, `Account(Base)` does not. -/
def inheritsAccountBoundMixin : EntityClass → Bool
  | .accountClass => false
  | .userClass => true
  | .addressClass => true

/-- The entity-class argument passed to `with_loader_criteria`.  The example
passes only `AccountBoundMixin`. -/
inductive CriteriaTarget where
  | accountBoundMixin
deriving DecidableEq, Repr

/-- Whether a loader-criteria target applies to a mapped class: the option
applies to every class inheriting the given target. -/
def CriteriaTarget.appliesTo : CriteriaTarget → EntityClass → Bool
  | .accountBoundMixin, c => inheritsAccountBoundMixin c

/-- One `orm.with_loader_criteria(...)` option as constructed by the
interceptor: the target class, the captured closure variable
`current_account_id` of the lambda `cls.account_id == current_account_id`,
and the two keyword flags. -/
structure LoaderCriteria where
  target : CriteriaTarget
  account_id : String
  include_aliases : Bool
  track_closure_variables : Bool
deriving DecidableEq, Repr

/-- A SQL FROM clause element, enough to express `get_final_froms()`:
a plain `Table`, an alias of another from-clause, a join, or a subquery. -/
inductive FromClause where
  | table (name : String)
  | aliasOf (name : String) (base : FromClause)
  | joinOf (left right : FromClause)
  | subqueryOf (base : FromClause)
deriving DecidableEq, Repr

/-- `isinstance(f, Table)`. -/
def FromClause.isTable : FromClause → Bool
  | .table _ => true
  | _ => false

/-- `.name` of a from-clause (tables and aliases carry one; the interceptor
only reads it after an `isinstance(..., Table)` check). -/
def FromClause.name : FromClause → String
  | .table n => n
  | .aliasOf n _ => n
  | _ => ""

/-- An ORM statement: a `Select` with its final FROM list and accumulated
loader-criteria options, or some other (DML) statement. -/
inductive Statement where
  | selectStmt (froms : List FromClause) (opts : List LoaderCriteria)
  | dmlStmt (opts : List LoaderCriteria)
deriving DecidableEq, Repr

/-- `isinstance(statement, Select)`. -/
def Statement.isSelect : Statement → Bool
  | .selectStmt _ _ => true
  | .dmlStmt _ => false

/-- `statement.get_final_froms()`. -/
def Statement.get_final_froms : Statement → List FromClause
  | .selectStmt froms _ => froms
  | .dmlStmt _ => []

/-- `statement.options(criteria)`: returns a new statement with the option
appended. -/
def Statement.options : Statement → LoaderCriteria → Statement
  | .selectStmt froms opts, c => .selectStmt froms (opts ++ [c])
  | .dmlStmt opts, c => .dmlStmt (opts ++ [c])

/-- The loader-criteria options carried by a statement. -/
def Statement.getOptions : Statement → List LoaderCriteria
  | .selectStmt _ opts => opts
  | .dmlStmt opts => opts

/-- `ORMExecuteState`: the fields the interceptor reads, plus the statement
it may replace. -/
structure ORMExecuteState where
  is_relationship_load : Bool
  is_column_load : Bool
  execution_options : List (String × Bool)
  statement : Statement
deriving DecidableEq, Repr

/-- `execution_options.get(key, default)`. -/
def getExecutionOption (opts : List (String × Bool)) (key : String) (dflt : Bool) : Bool :=
  match opts.lookup key with
  | some v => v
  | none => dflt

/-- The recursion guard of the interceptor:
`isinstance(statement, Select) and len(get_final_froms()) == 1 and
isinstance(froms[0], Table) and froms[0].name == Account.__tablename__`. -/
def isSingleAccountTableSelect : Statement → Bool
  | .selectStmt froms _ =>
      match froms with
      | [f] => f.isTable && (f.name == Account.tablename)
      | _ => false
  | .dmlStmt _ => false

/-- The `do_orm_execute` hook `_add_filtering_criteria`, translated line by
line.  A raised Python exception is an `Except.error`; note that when the
context holds no account at all, `account.id` raises `AttributeError`. -/
def _add_filtering_criteria (ctx : Context) (execute_state : ORMExecuteState) :
    Except String ORMExecuteState :=
  if !execute_state.is_relationship_load
      && !execute_state.is_column_load
      && !(getExecutionOption execute_state.execution_options "include_all_accounts" false)
      && !(isSingleAccountTableSelect execute_state.statement)
  then
    match ctx.get_current_account with
    | none => .error "AttributeError: NoneType object has no attribute id"
    | some account =>
      match account.id with
      | some current_account_id =>
          .ok { execute_state with
                statement := execute_state.statement.options
                  { target := .accountBoundMixin
                    account_id := current_account_id
                    include_aliases := true
                    track_closure_variables := true } }
      | none => .ok execute_state
  else
    .ok execute_state

/-- A stored `user` row: `id`, `name`, and the mixin column `account_id`
(`nullable=False`). -/
structure UserRow where
  id : Nat
  name : String
  account_id : String
deriving DecidableEq, Repr

/-- A stored `address` row: `id`, `email`, nullable `user_id` foreign key and
the mixin column `account_id` (`nullable=False`). -/
structure AddressRow where
  id : Nat
  email : String
  user_id : Option Nat
  account_id : String
deriving DecidableEq, Repr

/-- A stored `account` row. -/
structure AccountRow where
  id : String
  name : String
deriving DecidableEq, Repr

/-- The backing store: the three tables created by `Base.metadata.create_all`. -/
structure Database where
  accounts : List AccountRow
  users : List UserRow
  addresses : List AddressRow
deriving DecidableEq, Repr

/-- Modelled from the spec: a row of class `cls` with tenant column value
`aid` passes every attached loader-criteria option whose target capability
the class inherits; options targeting a capability the class lacks do not
constrain it ("a global row-filter predicate scoped to the tenant-bound
capability, requiring the tenant-foreign-key column equal the current id"). -/
def criteriaAllow (opts : List LoaderCriteria) (cls : EntityClass) (aid : String) : Bool :=
  opts.all fun c => !(c.target.appliesTo cls) || (aid == c.account_id)

/-- Modelled from the spec: a relationship load of `User.addresses` for one
parent row, as issued by the lazy loader.  It inherits the loader options
already attached to the parent statement and is itself executed through the
`do_orm_execute` hook with `is_relationship_load` set. -/
def loadAddressesFor (ctx : Context) (parentOpts : List LoaderCriteria)
    (db : Database) (u : UserRow) : Except String (List AddressRow) :=
  let relState : ORMExecuteState :=
    { is_relationship_load := true
      is_column_load := false
      execution_options := []
      statement := .selectStmt [.table "address"] parentOpts }
  match _add_filtering_criteria ctx relState with
  | .error e => .error e
  | .ok st =>
      .ok ((db.addresses.filter fun a => a.user_id == some u.id).filter
            fun a => criteriaAllow st.statement.getOptions .addressClass a.account_id)

/-- Modelled from the spec: the eager batch load (`selectinload`) of
`User.addresses`: one relationship-load statement fetches the addresses of
all parent rows at once, inheriting the parent statement's loader options,
then distributes them to their parents by foreign key. -/
def loadAddressesSelectin (ctx : Context) (parentOpts : List LoaderCriteria)
    (db : Database) (users : List UserRow) :
    Except String (List (UserRow × List AddressRow)) :=
  let relState : ORMExecuteState :=
    { is_relationship_load := true
      is_column_load := false
      execution_options := []
      statement := .selectStmt [.table "address"] parentOpts }
  match _add_filtering_criteria ctx relState with
  | .error e => .error e
  | .ok st =>
      let fetched := db.addresses.filter fun a =>
        (users.any fun u => a.user_id == some u.id)
          && criteriaAllow st.statement.getOptions .addressClass a.account_id
      .ok (users.map fun u => (u, fetched.filter fun a => a.user_id == some u.id))

/-- Modelled from the spec: the per-record lazy load of `User.addresses`:
one relationship-load statement per parent row, issued in order. -/
def loadAddressesLazy (ctx : Context) (parentOpts : List LoaderCriteria)
    (db : Database) : List UserRow → Except String (List (UserRow × List AddressRow))
  | [] => .ok []
  | u :: rest =>
      match loadAddressesFor ctx parentOpts db u with
      | .error e => .error e
      | .ok as =>
          match loadAddressesLazy ctx parentOpts db rest with
          | .error e => .error e
          | .ok tail => .ok ((u, as) :: tail)

/-- The two relationship-loading strategies exercised by the example
(`selectinload` eager batch load vs. per-record lazy load). -/
inductive LoadStrategy where
  | selectin
  | lazy
deriving DecidableEq, Repr

/-- Modelled from the spec: executing `sess.query(User)` with the given
execution options.  The top-level select on the `user` table passes through
the `do_orm_execute` hook; the loader options attached by the hook filter the
rows of every class inheriting the targeted capability, and propagate to the
relationship loads for `User.addresses` under either loading strategy. -/
def runUserSelect (ctx : Context) (exec_opts : List (String × Bool))
    (strategy : LoadStrategy) (db : Database) :
    Except String (List (UserRow × List AddressRow)) :=
  let st0 : ORMExecuteState :=
    { is_relationship_load := false
      is_column_load := false
      execution_options := exec_opts
      statement := .selectStmt [.table "user"] [] }
  match _add_filtering_criteria ctx st0 with
  | .error e => .error e
  | .ok st =>
      let opts := st.statement.getOptions
      let users := db.users.filter fun u => criteriaAllow opts .userClass u.account_id
      match strategy with
      | .selectin => loadAddressesSelectin ctx opts db users
      | .lazy => loadAddressesLazy ctx opts db users

/-- Modelled from the spec: executing `sess.query(Address)` directly with the
given execution options. -/
def runAddressSelect (ctx : Context) (exec_opts : List (String × Bool))
    (db : Database) : Except String (List AddressRow) :=
  let st0 : ORMExecuteState :=
    { is_relationship_load := false
      is_column_load := false
      execution_options := exec_opts
      statement := .selectStmt [.table "address"] [] }
  match _add_filtering_criteria ctx st0 with
  | .error e => .error e
  | .ok st =>
      .ok (db.addresses.filter fun a =>
            criteriaAllow st.statement.getOptions .addressClass a.account_id)

/-- Modelled from the spec: the relationship load of the `account`
relationship declared by `AccountBoundMixin` ("a navigable relationship" to
the tenant): fetches the account row the entity points to, inheriting the
parent statement's loader options through the hook. -/
def loadAccountFor (ctx : Context) (parentOpts : List LoaderCriteria)
    (db : Database) (aid : String) : Except String (List AccountRow) :=
  let relState : ORMExecuteState :=
    { is_relationship_load := true
      is_column_load := false
      execution_options := []
      statement := .selectStmt [.table "account"] parentOpts }
  match _add_filtering_criteria ctx relState with
  | .error e => .error e
  | .ok st =>
      .ok ((db.accounts.filter fun acc => acc.id == aid).filter
            fun acc => criteriaAllow st.statement.getOptions .accountClass acc.id)

/-- The `acc1` object of the smoke test. -/
def acc1Obj : Account := ⟨some "acc1", some "test account 1"⟩

/-- The `acc2` object of the smoke test. -/
def acc2Obj : Account := ⟨some "acc2", some "test account 2"⟩

/-- The database state after the smoke test's inserts: two accounts, five
users interleaved between them, and ten addresses, some deliberately
cross-assigned to a different account than their parent user. -/
def scenarioDB : Database :=
  { accounts := [⟨"acc1", "test account 1"⟩, ⟨"acc2", "test account 2"⟩]
    users :=
      [⟨1, "u1", "acc1"⟩, ⟨2, "u2", "acc1"⟩, ⟨3, "u3", "acc2"⟩,
       ⟨4, "u4", "acc2"⟩, ⟨5, "u5", "acc1"⟩]
    addresses :=
      [⟨1, "u1a1", some 1, "acc1"⟩, ⟨2, "u1a2", some 1, "acc1"⟩,
       ⟨3, "u2a1", some 2, "acc2"⟩, ⟨4, "u2a2", some 2, "acc1"⟩,
       ⟨5, "u3a1", some 3, "acc2"⟩, ⟨6, "u3a2", some 3, "acc2"⟩,
       ⟨7, "u4a1", some 4, "acc2"⟩, ⟨8, "u4a2", some 4, "acc1"⟩,
       ⟨9, "u5a1", some 5, "acc1"⟩, ⟨10, "u5a2", some 5, "acc2"⟩] }

/-- The result of iterating `sess.query(User)` with `selectinload` while
`acc1` is active: users u1, u2, u5 with only their acc1 addresses. -/
def c1ResU : List (UserRow × List AddressRow) :=
  [(⟨1, "u1", "acc1"⟩, [⟨1, "u1a1", some 1, "acc1"⟩, ⟨2, "u1a2", some 1, "acc1"⟩]),
   (⟨2, "u2", "acc1"⟩, [⟨4, "u2a2", some 2, "acc1"⟩]),
   (⟨5, "u5", "acc1"⟩, [⟨9, "u5a1", some 5, "acc1"⟩])]

/-- The result of querying `Address` directly while `acc1` is active. -/
def c1ResA : List AddressRow :=
  [⟨1, "u1a1", some 1, "acc1"⟩, ⟨2, "u1a2", some 1, "acc1"⟩,
   ⟨4, "u2a2", some 2, "acc1"⟩, ⟨8, "u4a2", some 4, "acc1"⟩,
   ⟨9, "u5a1", some 5, "acc1"⟩]

/-- The result of the same user query after switching the context to `acc2`:
users u3, u4 with only their acc2 addresses. -/
def c3Res2 : List (UserRow × List AddressRow) :=
  [(⟨3, "u3", "acc2"⟩, [⟨5, "u3a1", some 3, "acc2"⟩, ⟨6, "u3a2", some 3, "acc2"⟩]),
   (⟨4, "u4", "acc2"⟩, [⟨7, "u4a1", some 4, "acc2"⟩])]

/-- The unfiltered result of the user query under the bypass flag: all five
users, each with both of its addresses. -/
def c5Res : List (UserRow × List AddressRow) :=
  [(⟨1, "u1", "acc1"⟩, [⟨1, "u1a1", some 1, "acc1"⟩, ⟨2, "u1a2", some 1, "acc1"⟩]),
   (⟨2, "u2", "acc1"⟩, [⟨3, "u2a1", some 2, "acc2"⟩, ⟨4, "u2a2", some 2, "acc1"⟩]),
   (⟨3, "u3", "acc2"⟩, [⟨5, "u3a1", some 3, "acc2"⟩, ⟨6, "u3a2", some 3, "acc2"⟩]),
   (⟨4, "u4", "acc2"⟩, [⟨7, "u4a1", some 4, "acc2"⟩, ⟨8, "u4a2", some 4, "acc1"⟩]),
   (⟨5, "u5", "acc1"⟩, [⟨9, "u5a1", some 5, "acc1"⟩, ⟨10, "u5a2", some 5, "acc2"⟩])]

/-! ## Helper lemmas -/

/-- The first skip condition: a relationship load or a column load passes
through the hook unchanged. -/
lemma hook_skips_load (ctx : Context) (st : ORMExecuteState)
    (h : st.is_relationship_load = true ∨ st.is_column_load = true) :
    _add_filtering_criteria ctx st = .ok st := by
  unfold _add_filtering_criteria
  rcases h with h | h <;> rw [h] <;> simp

/-- The bypass skip condition: `include_all_accounts` set passes through
unchanged. -/
lemma hook_skips_bypass (ctx : Context) (st : ORMExecuteState)
    (h : getExecutionOption st.execution_options "include_all_accounts" false = true) :
    _add_filtering_criteria ctx st = .ok st := by
  unfold _add_filtering_criteria
  rw [h]
  simp

/-- The recursion guard: a single-table select on the account table passes
through unchanged. -/
lemma hook_skips_account_select (ctx : Context) (st : ORMExecuteState)
    (h : isSingleAccountTableSelect st.statement = true) :
    _add_filtering_criteria ctx st = .ok st := by
  unfold _add_filtering_criteria
  rw [h]
  simp

/-- When no skip condition applies and the context holds an account with an
id, the hook attaches exactly one loader-criteria option capturing that id. -/
lemma hook_attaches (a : Account) (tid : String) (hid : a.id = some tid)
    (st : ORMExecuteState)
    (hrel : st.is_relationship_load = false) (hcol : st.is_column_load = false)
    (hby : getExecutionOption st.execution_options "include_all_accounts" false = false)
    (hguard : isSingleAccountTableSelect st.statement = false) :
    _add_filtering_criteria ⟨some a⟩ st =
      .ok { st with statement := st.statement.options ⟨.accountBoundMixin, tid, true, true⟩ } := by
  unfold _add_filtering_criteria
  rw [hrel, hcol, hby, hguard]
  simp [Context.get_current_account, hid]

/-- A single option targeting `AccountBoundMixin` constrains every class
inheriting the mixin to the captured account id. -/
lemma criteriaAllow_single (cls : EntityClass) (hcls : inheritsAccountBoundMixin cls = true)
    (tid x : String) :
    criteriaAllow [⟨.accountBoundMixin, tid, true, true⟩] cls x = (x == tid) := by
  simp [criteriaAllow, CriteriaTarget.appliesTo, hcls]

/-- No option ever constrains the `Account` class: the only target in the
program is `AccountBoundMixin`, which `Account` does not inherit. -/
lemma criteriaAllow_accountClass (opts : List LoaderCriteria) (aid : String) :
    criteriaAllow opts .accountClass aid = true := by
  simp only [criteriaAllow, List.all_eq_true]
  intro c _
  cases hc : c.target
  simp [CriteriaTarget.appliesTo, hc, inheritsAccountBoundMixin]

/-- Closed form of a single lazy relationship load. -/
lemma loadAddressesFor_eq (ctx : Context) (opts : List LoaderCriteria)
    (db : Database) (u : UserRow) :
    loadAddressesFor ctx opts db u =
      .ok ((db.addresses.filter fun a => a.user_id == some u.id).filter
            fun a => criteriaAllow opts .addressClass a.account_id) := by
  unfold loadAddressesFor
  dsimp only
  rw [hook_skips_load ctx ⟨true, false, [], .selectStmt [.table "address"] opts⟩ (Or.inl rfl)]
  rfl

/-- Closed form of the per-record lazy loading pass. -/
lemma loadAddressesLazy_eq (ctx : Context) (opts : List LoaderCriteria)
    (db : Database) : ∀ us : List UserRow,
    loadAddressesLazy ctx opts db us =
      .ok (us.map fun u =>
        (u, (db.addresses.filter fun a => a.user_id == some u.id).filter
              fun a => criteriaAllow opts .addressClass a.account_id))
  | [] => rfl
  | u :: rest => by
      unfold loadAddressesLazy
      rw [loadAddressesFor_eq, loadAddressesLazy_eq ctx opts db rest]
      simp

/-- Closed form of the eager batch (`selectinload`) loading pass: it produces
the same per-parent address lists as the lazy pass. -/
lemma loadAddressesSelectin_eq (ctx : Context) (opts : List LoaderCriteria)
    (db : Database) (users : List UserRow) :
    loadAddressesSelectin ctx opts db users =
      .ok (users.map fun u =>
        (u, (db.addresses.filter fun a => a.user_id == some u.id).filter
              fun a => criteriaAllow opts .addressClass a.account_id)) := by
  unfold loadAddressesSelectin
  dsimp only
  rw [hook_skips_load ctx ⟨true, false, [], .selectStmt [.table "address"] opts⟩ (Or.inl rfl)]
  simp only [Statement.getOptions]
  congr 1
  apply List.map_congr_left
  intro u hu
  congr 1
  rw [List.filter_filter, List.filter_filter]
  apply List.filter_congr
  intro a _
  cases huid : (a.user_id == some u.id)
  · simp [huid]
  · simp only [huid, Bool.and_true, Bool.true_and]
    have hany : (users.any fun v => a.user_id == some v.id) = true :=
      List.any_eq_true.mpr ⟨u, hu, huid⟩
    rw [hany, Bool.true_and]

/-- Closed form of `runUserSelect` given the hook's output on the top-level
statement: the same per-class filters apply under either loading strategy. -/
lemma runUserSelect_eq_of_hook (ctx : Context) (exec_opts : List (String × Bool))
    (strategy : LoadStrategy) (db : Database) (opts : List LoaderCriteria)
    (hhook : _add_filtering_criteria ctx
        ⟨false, false, exec_opts, .selectStmt [.table "user"] []⟩ =
      .ok ⟨false, false, exec_opts, .selectStmt [.table "user"] opts⟩) :
    runUserSelect ctx exec_opts strategy db =
      .ok ((db.users.filter fun u => criteriaAllow opts .userClass u.account_id).map
        fun u => (u, (db.addresses.filter fun a => a.user_id == some u.id).filter
              fun a => criteriaAllow opts .addressClass a.account_id)) := by
  unfold runUserSelect
  dsimp only
  rw [hhook]
  cases strategy
  · exact loadAddressesSelectin_eq ctx opts db _
  · exact loadAddressesLazy_eq ctx opts db _

/-- Closed form of `runUserSelect` with tenant `tid` active and no execution
options: only rows with `account_id == tid` survive, in the users list and in
every loaded address list. -/
lemma runUserSelect_tenant (a : Account) (tid : String) (hid : a.id = some tid)
    (strategy : LoadStrategy) (db : Database) :
    runUserSelect ⟨some a⟩ [] strategy db =
      .ok ((db.users.filter fun u => u.account_id == tid).map
        fun u => (u, (db.addresses.filter fun ad => ad.user_id == some u.id).filter
              fun ad => ad.account_id == tid)) := by
  have hhook : _add_filtering_criteria ⟨some a⟩
      ⟨false, false, [], .selectStmt [.table "user"] []⟩ =
      .ok ⟨false, false, [], .selectStmt [.table "user"]
            [⟨.accountBoundMixin, tid, true, true⟩]⟩ :=
    hook_attaches a tid hid _ rfl rfl rfl rfl
  rw [runUserSelect_eq_of_hook ⟨some a⟩ [] strategy db _ hhook]
  simp only [criteriaAllow_single .userClass rfl, criteriaAllow_single .addressClass rfl]

/-- Closed form of `runUserSelect` when a skip condition made the hook leave
the statement without options: nothing is filtered. -/
lemma runUserSelect_unfiltered (ctx : Context) (exec_opts : List (String × Bool))
    (strategy : LoadStrategy) (db : Database)
    (hhook : _add_filtering_criteria ctx
        ⟨false, false, exec_opts, .selectStmt [.table "user"] []⟩ =
      .ok ⟨false, false, exec_opts, .selectStmt [.table "user"] []⟩) :
    runUserSelect ctx exec_opts strategy db =
      .ok (db.users.map fun u =>
        (u, db.addresses.filter fun a => a.user_id == some u.id)) := by
  rw [runUserSelect_eq_of_hook ctx exec_opts strategy db [] hhook]
  simp [criteriaAllow]

/-- Closed form of `runAddressSelect` with tenant `tid` active. -/
lemma runAddressSelect_tenant (a : Account) (tid : String) (hid : a.id = some tid)
    (db : Database) :
    runAddressSelect ⟨some a⟩ [] db =
      .ok (db.addresses.filter fun ad => ad.account_id == tid) := by
  have hhook : _add_filtering_criteria ⟨some a⟩
      ⟨false, false, [], .selectStmt [.table "address"] []⟩ =
      .ok ⟨false, false, [], .selectStmt [.table "address"]
            [⟨.accountBoundMixin, tid, true, true⟩]⟩ :=
    hook_attaches a tid hid _ rfl rfl rfl rfl
  unfold runAddressSelect
  dsimp only
  rw [hhook]
  simp only [Statement.getOptions, criteriaAllow_single .addressClass rfl]

/-- Closed form of the `account` relationship load: the fetched account rows
are never restricted by any loader-criteria option. -/
lemma loadAccountFor_eq (ctx : Context) (opts : List LoaderCriteria)
    (db : Database) (aid : String) :
    loadAccountFor ctx opts db aid =
      .ok (db.accounts.filter fun acc => acc.id == aid) := by
  unfold loadAccountFor
  dsimp only
  rw [hook_skips_load ctx ⟨true, false, [], .selectStmt [.table "account"] opts⟩ (Or.inl rfl)]
  simp [criteriaAllow_accountClass]

/-! ## Claim theorems -/

/-- Claim C1: for every tenant-bound record r (a User or Address) and every
active tenant t set in the context, a query executed while t is active with
no bypass flag returns only records with account_id equal to the active
tenant id; in the concrete five-user scenario, iterating all users while
"acc1" is active yields account_id = "acc1" for every user returned. -/
theorem tenant_query_returns_only_active_tenant_records
    (a : Account) (tid : String) (hid : a.id = some tid)
    (strategy : LoadStrategy) (db : Database)
    (resU : List (UserRow × List AddressRow)) (resA : List AddressRow)
    (hU : runUserSelect ⟨some a⟩ [] strategy db = .ok resU)
    (hA : runAddressSelect ⟨some a⟩ [] db = .ok resA) :
    (∀ p ∈ resU, p.1.account_id = tid) ∧ (∀ ad ∈ resA, ad.account_id = tid) := by
  rw [runUserSelect_tenant a tid hid strategy db] at hU
  rw [runAddressSelect_tenant a tid hid db] at hA
  injection hU with hU
  injection hA with hA
  subst hU
  subst hA
  constructor
  · intro p hp
    obtain ⟨u, hu, rfl⟩ := List.mem_map.mp hp
    exact eq_of_beq (List.mem_filter.mp hu).2
  · intro ad had
    exact eq_of_beq (List.mem_filter.mp had).2

/-- Witness for C1 at the smoke-test scenario with tenant acc1 active. -/
theorem tenant_query_returns_only_active_tenant_records_witness :
    acc1Obj.id = some "acc1"
    ∧ runUserSelect ⟨some acc1Obj⟩ [] .selectin scenarioDB = .ok c1ResU
    ∧ runAddressSelect ⟨some acc1Obj⟩ [] scenarioDB = .ok c1ResA
    ∧ ((∀ p ∈ c1ResU, p.1.account_id = "acc1") ∧ (∀ ad ∈ c1ResA, ad.account_id = "acc1")) :=
  ⟨rfl, rfl, rfl,
    tenant_query_returns_only_active_tenant_records acc1Obj "acc1" rfl .selectin
      scenarioDB c1ResU c1ResA rfl rfl⟩

/-- Claim C2: the tenant filter applies transitively to records reached
through the User.addresses relationship, and the eager batch strategy and
the per-record lazy strategy give identical results: every related record
reached from a query result has account_id equal to the active tenant id. -/
theorem relationship_loads_filtered_under_any_strategy
    (a : Account) (tid : String) (hid : a.id = some tid)
    (strategy : LoadStrategy) (db : Database)
    (res : List (UserRow × List AddressRow))
    (hrun : runUserSelect ⟨some a⟩ [] strategy db = .ok res) :
    (∀ p ∈ res, ∀ ad ∈ p.2, ad.account_id = tid)
    ∧ runUserSelect ⟨some a⟩ [] .selectin db = runUserSelect ⟨some a⟩ [] .lazy db := by
  constructor
  · rw [runUserSelect_tenant a tid hid strategy db] at hrun
    injection hrun with hrun
    subst hrun
    intro p hp ad had
    obtain ⟨u, hu, rfl⟩ := List.mem_map.mp hp
    exact eq_of_beq (List.mem_filter.mp had).2
  · rw [runUserSelect_tenant a tid hid .selectin db,
        runUserSelect_tenant a tid hid .lazy db]

/-- Witness for C2 at the smoke-test scenario with tenant acc1 active. -/
theorem relationship_loads_filtered_under_any_strategy_witness :
    acc1Obj.id = some "acc1"
    ∧ runUserSelect ⟨some acc1Obj⟩ [] .selectin scenarioDB = .ok c1ResU
    ∧ ((∀ p ∈ c1ResU, ∀ ad ∈ p.2, ad.account_id = "acc1")
        ∧ runUserSelect ⟨some acc1Obj⟩ [] .selectin scenarioDB
            = runUserSelect ⟨some acc1Obj⟩ [] .lazy scenarioDB) :=
  ⟨rfl, rfl,
    relationship_loads_filtered_under_any_strategy acc1Obj "acc1" rfl .selectin
      scenarioDB c1ResU rfl⟩

/-- Claim C3: switching the active tenant in the context from t1 to t2
between two queries changes the visible record set: the second query,
including its relationship loads, returns only records with account_id equal
to the id of t2, and (when the ids differ) no record of t1. -/
theorem tenant_switch_changes_visible_set
    (a1 a2 : Account) (t1 t2 : String)
    (h1 : a1.id = some t1) (h2 : a2.id = some t2)
    (ctx0 : Context) (strategy : LoadStrategy) (db : Database)
    (res2 : List (UserRow × List AddressRow))
    (hrun : runUserSelect
        ((ctx0.set_current_account (some a1)).set_current_account (some a2))
        [] strategy db = .ok res2) :
    ∀ p ∈ res2,
      (p.1.account_id = t2 ∧ (t1 ≠ t2 → p.1.account_id ≠ t1))
      ∧ ∀ ad ∈ p.2, ad.account_id = t2 ∧ (t1 ≠ t2 → ad.account_id ≠ t1) := by
  have hctx : (ctx0.set_current_account (some a1)).set_current_account (some a2)
      = ⟨some a2⟩ := rfl
  rw [hctx, runUserSelect_tenant a2 t2 h2 strategy db] at hrun
  injection hrun with hrun
  subst hrun
  intro p hp
  obtain ⟨u, hu, rfl⟩ := List.mem_map.mp hp
  have hu2 : u.account_id = t2 := eq_of_beq (List.mem_filter.mp hu).2
  refine ⟨⟨hu2, fun hne heq => hne (heq ▸ hu2)⟩, ?_⟩
  intro ad had
  have had2 : ad.account_id = t2 := eq_of_beq (List.mem_filter.mp had).2
  exact ⟨had2, fun hne heq => hne (heq ▸ had2)⟩

/-- Witness for C3: the smoke test switches from acc1 to acc2 and re-queries. -/
theorem tenant_switch_changes_visible_set_witness :
    acc1Obj.id = some "acc1" ∧ acc2Obj.id = some "acc2"
    ∧ runUserSelect
        ((Context.init.set_current_account (some acc1Obj)).set_current_account (some acc2Obj))
        [] .selectin scenarioDB = .ok c3Res2
    ∧ ∀ p ∈ c3Res2,
        (p.1.account_id = "acc2" ∧ ("acc1" ≠ "acc2" → p.1.account_id ≠ "acc1"))
        ∧ ∀ ad ∈ p.2, ad.account_id = "acc2" ∧ ("acc1" ≠ "acc2" → ad.account_id ≠ "acc1") :=
  ⟨rfl, rfl, rfl,
    tenant_switch_changes_visible_set acc1Obj acc2Obj "acc1" "acc2" rfl rfl
      Context.init .selectin scenarioDB c3Res2 rfl⟩

/-- Claim C4 counterexample: with no current-tenant value present, the hook
does not silently pass the statement through unchanged; reading `.id` on the
absent account raises an AttributeError instead. -/
theorem missing_account_not_silent_pass_through :
    _add_filtering_criteria Context.init
        ⟨false, false, [], .selectStmt [.table "user"] []⟩
      = .error "AttributeError: NoneType object has no attribute id"
    ∧ _add_filtering_criteria Context.init
        ⟨false, false, [], .selectStmt [.table "user"] []⟩
      ≠ .ok ⟨false, false, [], .selectStmt [.table "user"] []⟩ :=
  ⟨rfl, fun h => Except.noConfusion h⟩

/-- Claim C4 (amended): when a current account is set but its id is None the
hook silently passes the statement through unchanged (no filter, no error);
when no current-tenant value is present at all, the hook raises an
AttributeError rather than passing through. -/
theorem missing_tenant_behavior
    (st : ORMExecuteState) (a : Account) (ha : a.id = none)
    (hrel : st.is_relationship_load = false) (hcol : st.is_column_load = false)
    (hby : getExecutionOption st.execution_options "include_all_accounts" false = false)
    (hguard : isSingleAccountTableSelect st.statement = false) :
    _add_filtering_criteria ⟨some a⟩ st = .ok st
    ∧ _add_filtering_criteria ⟨none⟩ st
        = .error "AttributeError: NoneType object has no attribute id" := by
  constructor
  · unfold _add_filtering_criteria
    rw [hrel, hcol, hby, hguard]
    simp [Context.get_current_account, ha]
  · unfold _add_filtering_criteria
    rw [hrel, hcol, hby, hguard]
    simp [Context.get_current_account]

/-- Witness for C4 (amended) at a concrete statement and account. -/
theorem missing_tenant_behavior_witness :
    (⟨none, none⟩ : Account).id = none
    ∧ (⟨false, false, [], .selectStmt [.table "user"] []⟩ :
        ORMExecuteState).is_relationship_load = false
    ∧ (_add_filtering_criteria ⟨some ⟨none, none⟩⟩
          ⟨false, false, [], .selectStmt [.table "user"] []⟩
        = .ok ⟨false, false, [], .selectStmt [.table "user"] []⟩
      ∧ _add_filtering_criteria ⟨none⟩
          ⟨false, false, [], .selectStmt [.table "user"] []⟩
        = .error "AttributeError: NoneType object has no attribute id") :=
  ⟨rfl, rfl,
    missing_tenant_behavior ⟨false, false, [], .selectStmt [.table "user"] []⟩
      ⟨none, none⟩ rfl rfl rfl rfl rfl⟩

/-- Claim C5: a statement executed with the "include_all_accounts" execution
option set passes through the hook unchanged, and the query returns
unfiltered results, regardless of which tenant is active in the context. -/
theorem bypass_flag_returns_unfiltered
    (ctx : Context) (st : ORMExecuteState)
    (hst : getExecutionOption st.execution_options "include_all_accounts" false = true)
    (strategy : LoadStrategy) (db : Database) :
    _add_filtering_criteria ctx st = .ok st
    ∧ runUserSelect ctx [("include_all_accounts", true)] strategy db
        = .ok (db.users.map fun u =>
            (u, db.addresses.filter fun a => a.user_id == some u.id)) := by
  refine ⟨hook_skips_bypass ctx st hst, ?_⟩
  apply runUserSelect_unfiltered
  apply hook_skips_bypass
  rfl

/-- Witness for C5 with tenant acc1 active on the smoke-test data. -/
theorem bypass_flag_returns_unfiltered_witness :
    getExecutionOption [("include_all_accounts", true)] "include_all_accounts" false = true
    ∧ (_add_filtering_criteria ⟨some acc1Obj⟩
          ⟨false, false, [("include_all_accounts", true)], .selectStmt [.table "user"] []⟩
        = .ok ⟨false, false, [("include_all_accounts", true)], .selectStmt [.table "user"] []⟩
      ∧ runUserSelect ⟨some acc1Obj⟩ [("include_all_accounts", true)] .selectin scenarioDB
        = .ok c5Res) :=
  ⟨rfl,
    bypass_flag_returns_unfiltered ⟨some acc1Obj⟩
      ⟨false, false, [("include_all_accounts", true)], .selectStmt [.table "user"] []⟩
      rfl .selectin scenarioDB⟩

/-- Claim C6: a Select whose final FROM list is exactly one Table named
"account" always passes through the hook unchanged, for every context, so
resolving the current tenant never recursively triggers tenant filtering. -/
theorem account_table_select_never_filtered
    (ctx : Context) (st : ORMExecuteState) (opts : List LoaderCriteria)
    (hstmt : st.statement = .selectStmt [.table "account"] opts) :
    _add_filtering_criteria ctx st = .ok st := by
  apply hook_skips_account_select
  rw [hstmt]
  rfl

/-- Witness for C6: a bare select of the account table, with a tenant
active. -/
theorem account_table_select_never_filtered_witness :
    (⟨false, false, [], .selectStmt [.table "account"] []⟩ :
        ORMExecuteState).statement = .selectStmt [.table "account"] []
    ∧ _add_filtering_criteria ⟨some acc1Obj⟩
        ⟨false, false, [], .selectStmt [.table "account"] []⟩
      = .ok ⟨false, false, [], .selectStmt [.table "account"] []⟩ :=
  ⟨rfl,
    account_table_select_never_filtered ⟨some acc1Obj⟩
      ⟨false, false, [], .selectStmt [.table "account"] []⟩ [] rfl⟩

/-- Claim C7: an execution that is itself a relationship load or a
deferred-column load passes through the hook with its statement object left
unchanged, whatever the context. -/
theorem relationship_or_column_load_left_unchanged
    (ctx : Context) (st : ORMExecuteState)
    (h : st.is_relationship_load = true ∨ st.is_column_load = true) :
    _add_filtering_criteria ctx st = .ok st :=
  hook_skips_load ctx st h

/-- Witness for C7 at a concrete lazy relationship load. -/
theorem relationship_or_column_load_left_unchanged_witness :
    ((⟨true, false, [], .selectStmt [.table "address"] []⟩ :
        ORMExecuteState).is_relationship_load = true
      ∨ (⟨true, false, [], .selectStmt [.table "address"] []⟩ :
        ORMExecuteState).is_column_load = true)
    ∧ _add_filtering_criteria ⟨some acc1Obj⟩
        ⟨true, false, [], .selectStmt [.table "address"] []⟩
      = .ok ⟨true, false, [], .selectStmt [.table "address"] []⟩ :=
  ⟨Or.inl rfl,
    relationship_or_column_load_left_unchanged ⟨some acc1Obj⟩
      ⟨true, false, [], .selectStmt [.table "address"] []⟩ (Or.inl rfl)⟩

/-- Claim C8: the context holds at most one current-tenant reference:
reading before any set yields None; after setting a value, reading returns
exactly that value; and each set silently overwrites the previous value
rather than stacking it. -/
theorem context_single_slot :
    Context.init.get_current_account = none
    ∧ (∀ (c : Context) (v : Option Account),
        (c.set_current_account v).get_current_account = v)
    ∧ (∀ (c : Context) (v w : Option Account),
        (c.set_current_account v).set_current_account w = c.set_current_account w) :=
  ⟨rfl, fun _ _ => rfl, fun _ _ _ => rfl⟩

/-- Claim C9: the account-table exemption is narrow: whenever the recursion
guard does not match (the statement is not a Select over exactly one final
FROM that is the account Table), and no other skip condition applies and a
tenant id is present, the hook does attach the filtering option. -/
theorem account_exemption_is_narrow
    (a : Account) (tid : String) (hid : a.id = some tid)
    (st : ORMExecuteState)
    (hrel : st.is_relationship_load = false) (hcol : st.is_column_load = false)
    (hby : getExecutionOption st.execution_options "include_all_accounts" false = false)
    (hguard : isSingleAccountTableSelect st.statement = false) :
    _add_filtering_criteria ⟨some a⟩ st =
      .ok { st with
            statement := st.statement.options ⟨.accountBoundMixin, tid, true, true⟩ } :=
  hook_attaches a tid hid st hrel hcol hby hguard

/-- Witness for C9: a select joining the account table with the user table,
and a select from an aliased account table, are both still filtered. -/
theorem account_exemption_is_narrow_witness :
    (isSingleAccountTableSelect
        (.selectStmt [.joinOf (.table "account") (.table "user")] []) = false
      ∧ _add_filtering_criteria ⟨some acc1Obj⟩
          ⟨false, false, [], .selectStmt [.joinOf (.table "account") (.table "user")] []⟩
        = .ok ⟨false, false, [],
            .selectStmt [.joinOf (.table "account") (.table "user")]
              [⟨.accountBoundMixin, "acc1", true, true⟩]⟩)
    ∧ (isSingleAccountTableSelect
        (.selectStmt [.aliasOf "account_alias" (.table "account")] []) = false
      ∧ _add_filtering_criteria ⟨some acc1Obj⟩
          ⟨false, false, [], .selectStmt [.aliasOf "account_alias" (.table "account")] []⟩
        = .ok ⟨false, false, [],
            .selectStmt [.aliasOf "account_alias" (.table "account")]
              [⟨.accountBoundMixin, "acc1", true, true⟩]⟩) :=
  ⟨⟨rfl,
    account_exemption_is_narrow acc1Obj "acc1" rfl
      ⟨false, false, [], .selectStmt [.joinOf (.table "account") (.table "user")] []⟩
      rfl rfl rfl rfl⟩,
   ⟨rfl,
    account_exemption_is_narrow acc1Obj "acc1" rfl
      ⟨false, false, [], .selectStmt [.aliasOf "account_alias" (.table "account")] []⟩
      rfl rfl rfl rfl⟩⟩

/-- Claim C10: the injected loader criteria is scoped to the
AccountBoundMixin capability, which User and Address carry but Account does
not: no list of options produced in this program ever restricts Account rows
(in particular the account relationship load returns the account row
unrestricted), while the interceptor's option constrains User and Address
rows to the captured account id. -/
theorem criteria_scoped_to_account_bound_classes
    (opts : List LoaderCriteria) (aid : String) (ctx : Context) (db : Database) :
    criteriaAllow opts .accountClass aid = true
    ∧ loadAccountFor ctx opts db aid = .ok (db.accounts.filter fun acc => acc.id == aid)
    ∧ (∀ tid x : String,
        criteriaAllow [⟨.accountBoundMixin, tid, true, true⟩] .userClass x = (x == tid)
        ∧ criteriaAllow [⟨.accountBoundMixin, tid, true, true⟩] .addressClass x = (x == tid)) :=
  ⟨criteriaAllow_accountClass opts aid, loadAccountFor_eq ctx opts db aid,
   fun tid x =>
     ⟨criteriaAllow_single .userClass rfl tid x,
      criteriaAllow_single .addressClass rfl tid x⟩⟩

end FilterPerTenant
